import Mathlib

/-!
Shallow embedding of the pricing and checkout engine of the
"Printing & Custom Mugs API" backend (src/main.py together with the
schemas in src/schemas.py).

Modelling conventions:
* Option dictionaries (`Dict[str, Any]`) become association lists from
  `String` to a JSON-like `Value`; `optGet` is `dict.get`.
* Python `int(x)` becomes `toIntV` / `toIntOpt`, returning `Except`:
  `int(None)` raises `TypeError`, `int` of a non-numeric string raises
  `ValueError`, and `HTTPException(400, ...)` raised by the pricing code
  is `PyErr.http 400 ...`.
* All monetary amounts in the program are integer-valued floats
  (table entries, integer page counts and quantities), so prices are
  embedded as `Int`; float arithmetic on such values is exact.
* Mongo collections become lists of documents inside `DBState`;
  `find_one` is `List.find?` and document ids are their string form.
-/

/-- A JSON-like option value as it appears in a cart line's `options`
dictionary: a string, an integer, or null. -/
inductive Value where
  | str (s : String)
  | int (n : Int)
  | null
  deriving DecidableEq, Repr

/-- Errors a request handler can produce: `http s d` is
`HTTPException(status_code=s, detail=d)`; `valueError` is Python's
`ValueError` (e.g. `int` of a malformed numeric string); `typeError` is
Python's `TypeError` (e.g. `int(None)`). -/
inductive PyErr where
  | http (status : Nat) (detail : String)
  | valueError
  | typeError
  deriving DecidableEq, Repr

/-- An options dictionary: association list from option name to value. -/
abbrev Opts := List (String × Value)

/-- `opts.get(key)`: first binding of `key`, or none. -/
def optGet (o : Opts) (k : String) : Option Value :=
  List.lookup k o

/-- Decimal digits to a number, accumulator style; `Option.none` on the
first non-digit character. -/
def pyDigits : List Char → Nat → Option Nat
  | [], acc => some acc
  | c :: cs, acc =>
      if c.isDigit then pyDigits cs (acc * 10 + (c.toNat - 48))
      else Option.none

/-- The integer a decimal string literal denotes (optionally signed,
then at least one digit), or `Option.none` when the string is not a
valid integer literal — the strings on which Python `int` raises
`ValueError`. -/
def pyToInt (s : String) : Option Int :=
  match s.toList with
  | [] => Option.none
  | c :: cs =>
      if c = Char.ofNat 45 then
        match cs with
        | [] => Option.none
        | _ => (pyDigits cs 0).map (fun n => -(n : Int))
      else (pyDigits (c :: cs) 0).map (fun n => (n : Int))

/-- Python `int(v)` on a JSON value: integers pass through, numeric
strings parse, non-numeric strings raise `ValueError`, null raises
`TypeError`. -/
def toIntV : Value → Except PyErr Int
  | Value.int n => Except.ok n
  | Value.str s =>
      match pyToInt s with
      | some n => Except.ok n
      | Option.none => Except.error PyErr.valueError
  | Value.null => Except.error PyErr.typeError

/-- Python `int(opts.get(key))`: a missing key gives `None`, and
`int(None)` raises `TypeError`. -/
def toIntOpt : Option Value → Except PyErr Int
  | Option.none => Except.error PyErr.typeError
  | some v => toIntV v

/-- `True` exactly for an `HTTPException` with status 400, the shape of
every validation failure the pricing code raises. -/
def PyErr.isValidationError : PyErr → Bool
  | PyErr.http 400 _ => true
  | _ => false

/-- The 12-entry per-page price dictionary of `price_document_printing`,
keyed by `(color, size, gsm)`. -/
def docTable : Option Value → Option Value → Int → Option Int
  | some (Value.str "bw"), some (Value.str "A4"), 80 => some 3
  | some (Value.str "bw"), some (Value.str "A4"), 100 => some 4
  | some (Value.str "bw"), some (Value.str "A4"), 130 => some 5
  | some (Value.str "bw"), some (Value.str "A3"), 80 => some 8
  | some (Value.str "bw"), some (Value.str "A3"), 100 => some 10
  | some (Value.str "bw"), some (Value.str "A3"), 130 => some 12
  | some (Value.str "colour"), some (Value.str "A4"), 80 => some 10
  | some (Value.str "colour"), some (Value.str "A4"), 100 => some 12
  | some (Value.str "colour"), some (Value.str "A4"), 130 => some 15
  | some (Value.str "colour"), some (Value.str "A3"), 80 => some 25
  | some (Value.str "colour"), some (Value.str "A3"), 100 => some 30
  | some (Value.str "colour"), some (Value.str "A3"), 130 => some 35
  | _, _, _ => Option.none

/-- `int(opts.get("pages", 1))`: default 1 when the key is absent. -/
def pagesOf (opts : Opts) : Except PyErr Int :=
  match optGet opts "pages" with
  | Option.none => Except.ok 1
  | some v => toIntV v

/-- `price_document_printing`: per-page table lookup times page count. -/
def price_document_printing (opts : Opts) : Except PyErr Int :=
  match toIntOpt (optGet opts "gsm") with
  | Except.error e => Except.error e
  | Except.ok gsm =>
    match pagesOf opts with
    | Except.error e => Except.error e
    | Except.ok pages =>
      match docTable (optGet opts "color") (optGet opts "size") gsm with
      | Option.none => Except.error (PyErr.http 400 "Invalid options")
      | some per_page => Except.ok (per_page * pages)

/-- `price_visiting_cards`: paper tier table with a two-way quantity
split (50 vs anything else). -/
def price_visiting_cards (opts : Opts) : Except PyErr Int :=
  match toIntOpt (optGet opts "quantity") with
  | Except.error e => Except.error e
  | Except.ok qty =>
    if optGet opts "paper" = some (Value.str "economy_250_matte") then
      Except.ok (if qty = 50 then 150 else 250)
    else if optGet opts "paper" = some (Value.str "premium_300_matte") ∨
            optGet opts "paper" = some (Value.str "premium_300_gloss") then
      Except.ok (if qty = 50 then 250 else 400)
    else Except.error (PyErr.http 400 "Invalid options")

/-- `price_letterheads`: gsm table with a two-way quantity split
(100 vs anything else). -/
def price_letterheads (opts : Opts) : Except PyErr Int :=
  match toIntOpt (optGet opts "gsm") with
  | Except.error e => Except.error e
  | Except.ok gsm =>
    match toIntOpt (optGet opts "quantity") with
    | Except.error e => Except.error e
    | Except.ok qty =>
      if gsm = 100 then Except.ok (if qty = 100 then 200 else 350)
      else if gsm = 130 then Except.ok (if qty = 100 then 260 else 450)
      else Except.error (PyErr.http 400 "Invalid options")

/-- `price_envelopes`: envelope type table with a two-way quantity split
(100 vs anything else). -/
def price_envelopes (opts : Opts) : Except PyErr Int :=
  match toIntOpt (optGet opts "quantity") with
  | Except.error e => Except.error e
  | Except.ok qty =>
    if optGet opts "type" = some (Value.str "standard_80") then
      Except.ok (if qty = 100 then 200 else 350)
    else if optGet opts "type" = some (Value.str "premium_100") then
      Except.ok (if qty = 100 then 260 else 450)
    else Except.error (PyErr.http 400 "Invalid options")

/-- `price_flyers`: size table with a two-way quantity split
(50 vs anything else). -/
def price_flyers (opts : Opts) : Except PyErr Int :=
  match toIntOpt (optGet opts "quantity") with
  | Except.error e => Except.error e
  | Except.ok qty =>
    if optGet opts "size" = some (Value.str "A5") then
      Except.ok (if qty = 50 then 250 else 400)
    else if optGet opts "size" = some (Value.str "A4") then
      Except.ok (if qty = 50 then 350 else 600)
    else Except.error (PyErr.http 400 "Invalid options")

/-- `price_posters`: 80 for quantity exactly 1, otherwise 700; no
validation of the quantity value. -/
def price_posters (opts : Opts) : Except PyErr Int :=
  match toIntOpt (optGet opts "quantity") with
  | Except.error e => Except.error e
  | Except.ok qty => Except.ok (if qty = 1 then 80 else 700)

/-- `price_mugs`: exact quantities 1, 2 or 4; anything else is invalid. -/
def price_mugs (opts : Opts) : Except PyErr Int :=
  match toIntOpt (optGet opts "quantity") with
  | Except.error e => Except.error e
  | Except.ok qty =>
    if qty = 1 then Except.ok 299
    else if qty = 2 then Except.ok 550
    else if qty = 4 then Except.ok 1040
    else Except.error (PyErr.http 400 "Invalid options")

/-- `spiral_binding` values of the `AddOns` pydantic model. -/
inductive Spiral where
  | up_to_80
  | r81_150
  deriving DecidableEq, Repr

/-- `lamination` values of the `AddOns` pydantic model. -/
inductive Lam where
  | ID
  | A4
  | A3
  deriving DecidableEq, Repr

/-- The `AddOns` pydantic model: both fields optional. -/
structure AddOns where
  spiral_binding : Option Spiral := Option.none
  lamination : Option Lam := Option.none
  deriving DecidableEq, Repr

/-- `price_addons`: spiral binding only charges on `document_printing`
(ignored otherwise), lamination charges on every product; no add-ons
costs 0.  The `opts` argument is unused, mirroring the source. -/
def price_addons (addons : Option AddOns) (base_product : String) (_opts : Opts) : Int :=
  match addons with
  | Option.none => 0
  | some a =>
    let spiral_part : Int :=
      match a.spiral_binding with
      | Option.none => 0
      | some s =>
        if base_product = "document_printing" then
          match s with
          | Spiral.up_to_80 => 30
          | Spiral.r81_150 => 40
        else 0
    let lam_part : Int :=
      match a.lamination with
      | Option.none => 0
      | some Lam.ID => 15
      | some Lam.A4 => 40
      | some Lam.A3 => 60
    spiral_part + lam_part

/-- The `CartItem` pydantic model's fields used by the pricing engine.
`product` is a string so the engine's unknown-product branch is
reachable; `quantity` defaults to 1. -/
structure CartItem where
  product : String
  options : Opts
  addons : Option AddOns := Option.none
  quantity : Int := 1
  deriving DecidableEq, Repr

/-- One priced line of the quote returned by `compute_price`. -/
structure LineItem where
  product : String
  options : Opts
  quantity : Int
  unit_price : Int
  addon_cost : Int
  line_total : Int
  deriving DecidableEq, Repr

/-- The quote returned by `POST /price/compute`. -/
structure Quote where
  items : List LineItem
  subtotal : Int
  platform_fee : Int
  delivery_fee : Int
  total : Int
  contains_office_visiting_cards : Bool
  deriving DecidableEq, Repr

def PLATFORM_FEE : Int := 10

def DELIVERY_THRESHOLD : Int := 300

def DELIVERY_FEE : Int := 35

/-- The product-tag dispatch inside `compute_price`'s loop: route to the
product's pricing function, or fail with 400 "Unknown product". -/
def price_dispatch (prod : String) (opts : Opts) : Except PyErr Int :=
  if prod = "document_printing" then price_document_printing opts
  else if prod = "visiting_cards" then price_visiting_cards opts
  else if prod = "letterheads" then price_letterheads opts
  else if prod = "envelopes" then price_envelopes opts
  else if prod = "flyers" then price_flyers opts
  else if prod = "posters" then price_posters opts
  else if prod = "custom_mug" then price_mugs opts
  else Except.error (PyErr.http 400 "Unknown product")

/-- One iteration of `compute_price`'s loop on a line: unit price via
dispatch, add-on cost, `line_total = (unit + addon_cost) * quantity`. -/
def lineResult (it : CartItem) : Except PyErr LineItem :=
  match price_dispatch it.product it.options with
  | Except.error e => Except.error e
  | Except.ok unit =>
    let addon_cost := price_addons it.addons it.product it.options
    let line_total := (unit + addon_cost) * it.quantity
    Except.ok
      { product := it.product
        options := it.options
        quantity := it.quantity
        unit_price := unit
        addon_cost := addon_cost
        line_total := line_total }

/-- The office-card condition checked in `compute_price`'s
visiting-cards branch: product is `visiting_cards` and the `card_type`
option equals `"office"`. -/
def lineOffice (it : CartItem) : Bool :=
  it.product == "visiting_cards" &&
    optGet it.options "card_type" == some (Value.str "office")

/-- `compute_price`'s loop over the cart: priced lines in order, the
running subtotal, and the office-visiting-cards flag; the first failing
line's error aborts the whole computation. -/
def computeLines : List CartItem → Except PyErr (List LineItem × Int × Bool)
  | [] => Except.ok ([], 0, false)
  | it :: rest =>
    match lineResult it with
    | Except.error e => Except.error e
    | Except.ok li =>
      match computeLines rest with
      | Except.error e => Except.error e
      | Except.ok (ls, sub, off) =>
        Except.ok (li :: ls, li.line_total + sub, lineOffice it || off)

/-- `POST /price/compute`: price every line, then attach the platform
fee, the threshold-conditional delivery fee, and the total. -/
def compute_price (items : List CartItem) : Except PyErr Quote :=
  match computeLines items with
  | Except.error e => Except.error e
  | Except.ok (ls, subtotal, off) =>
    let platform_fee := PLATFORM_FEE
    let delivery_fee := if subtotal > DELIVERY_THRESHOLD then 0 else DELIVERY_FEE
    Except.ok
      { items := ls
        subtotal := subtotal
        platform_fee := platform_fee
        delivery_fee := delivery_fee
        total := subtotal + platform_fee + delivery_fee
        contains_office_visiting_cards := off }

/-- The `Address` pydantic model. -/
structure Address where
  label : Option String := Option.none
  address_line : String
  city : String
  pincode : String
  is_default : Bool := false
  deriving DecidableEq, Repr

/-- A stored `session` document. -/
structure SessionDoc where
  user_id : String
  token : String
  expires_at : Int
  deriving DecidableEq, Repr

/-- A stored `user` document (the fields the core reads). -/
structure UserDoc where
  id : String
  full_name : String
  mobile : String
  email : String
  deriving DecidableEq, Repr

/-- A stored `order` document. -/
structure OrderDoc where
  id : String
  user_id : String
  items : List CartItem
  pricing_items : List LineItem
  subtotal : Int
  platform_fee : Int
  delivery_fee : Int
  total : Int
  status : String
  address : Address
  contains_office_visiting_cards : Bool
  whatsapp_link : Option String := Option.none
  deriving DecidableEq, Repr

/-- The database visible to the core: the three collections it touches
plus a counter from which the next generated ObjectId is derived. -/
structure DBState where
  sessions : List SessionDoc
  users : List UserDoc
  orders : List OrderDoc
  next_id : Nat
  deriving DecidableEq, Repr

/-- A hexadecimal digit, as accepted inside a BSON ObjectId string. -/
def isHexDigit (c : Char) : Bool :=
  c.isDigit || (Char.ofNat 97 ≤ c && c ≤ Char.ofNat 102) ||
    (Char.ofNat 65 ≤ c && c ≤ Char.ofNat 70)

/-- `to_object_id`: `ObjectId(value)` succeeds exactly on 24-character
hex strings, otherwise the helper returns `None`. -/
def to_object_id (s : String) : Option String :=
  if s.length = 24 && s.toList.all isHexDigit then some s else Option.none

/-- The id `create_document` returns for the `n`-th insertion: the hex
digits of `n` left-padded with zeros to the 24 ObjectId characters. -/
def genId (n : Nat) : String :=
  let h := String.mk (Nat.toDigits 16 n)
  String.mk (List.replicate (24 - h.length) (Char.ofNat 48)) ++ h

/-- `auth_user`: a missing or empty token, an unknown token, or a
session whose owning user is gone each raise 401. -/
def auth_user (st : DBState) (token : Option String) : Except PyErr UserDoc :=
  match token with
  | Option.none => Except.error (PyErr.http 401 "Not authenticated")
  | some t =>
    if t = "" then Except.error (PyErr.http 401 "Not authenticated")
    else
      match st.sessions.find? (fun s => s.token == t) with
      | Option.none => Except.error (PyErr.http 401 "Invalid session")
      | some sess =>
        match to_object_id sess.user_id with
        | Option.none => Except.error (PyErr.http 401 "User not found")
        | some oid =>
          match st.users.find? (fun u => u.id == oid) with
          | Option.none => Except.error (PyErr.http 401 "User not found")
          | some user => Except.ok user

/-- The `CheckoutPayload` model of `POST /orders`. -/
structure CheckoutPayload where
  items : List CartItem
  address : Address
  payment_method : String
  token : Option String := Option.none
  deriving DecidableEq, Repr

/-- The response body of `POST /orders`. -/
structure OrderReceipt where
  order_id : String
  total : Int
  status : String
  whatsapp_link : Option String
  message : Option String
  deriving DecidableEq, Repr

/-- The URI-encoded WhatsApp text built for an office-visiting-cards
order: order id, user name and mobile, joined with `%0A` separators. -/
def whatsapp_text (order_id full_name mobile : String) : String :=
  "Order ID: " ++ order_id ++ "%0AUser: " ++ full_name ++ " (" ++ mobile ++
    ")%0AProduct: Office visiting card%0ADetails: see admin panel"

/-- The `wa.me` deep link: admin number with `+` stripped, then the
text as the `text` query parameter. -/
def whatsapp_link_of (admin order_id full_name mobile : String) : String :=
  "https://wa.me/" ++ (admin.replace "+" "") ++ "?text=" ++
    whatsapp_text order_id full_name mobile

/-- The notice returned alongside the deep link. -/
def OFFICE_MESSAGE : String :=
  "We\u2019ll confirm your office visiting card design with you on WhatsApp before printing."

/-- `POST /orders` (`place_order`): authenticate, price the cart,
persist the order, and for office visiting cards attach and return the
WhatsApp deep link plus the confirmation notice.  `admin` is the
`ADMIN_WHATSAPP` environment value (default `+911234567890`). -/
def place_order (admin : String) (st : DBState) (p : CheckoutPayload) :
    Except PyErr (DBState × OrderReceipt) :=
  match auth_user st p.token with
  | Except.error e => Except.error e
  | Except.ok user =>
    match compute_price p.items with
    | Except.error e => Except.error e
    | Except.ok pricing =>
      let order_id := genId st.next_id
      let base_order : OrderDoc :=
        { id := order_id
          user_id := user.id
          items := p.items
          pricing_items := pricing.items
          subtotal := pricing.subtotal
          platform_fee := pricing.platform_fee
          delivery_fee := pricing.delivery_fee
          total := pricing.total
          status := "Placed"
          address := p.address
          contains_office_visiting_cards := pricing.contains_office_visiting_cards
          whatsapp_link := Option.none }
      let st1 : DBState :=
        { st with orders := st.orders ++ [base_order], next_id := st.next_id + 1 }
      if pricing.contains_office_visiting_cards then
        let link := whatsapp_link_of admin order_id user.full_name user.mobile
        let st2 : DBState :=
          { st1 with
            orders := st1.orders.map fun o =>
              if o.id == order_id then { o with whatsapp_link := some link } else o }
        Except.ok
          (st2,
            { order_id := order_id
              total := pricing.total
              status := "Order placed"
              whatsapp_link := some link
              message := some OFFICE_MESSAGE })
      else
        Except.ok
          (st1,
            { order_id := order_id
              total := pricing.total
              status := "Order placed"
              whatsapp_link := Option.none
              message := Option.none })

/-- The order collection after a `place_order` attempt: the new state's
orders when checkout succeeded, the untouched store when it raised. -/
def ordersAfter (admin : String) (st : DBState) (p : CheckoutPayload) : List OrderDoc :=
  match place_order admin st p with
  | Except.ok (st2, _) => st2.orders
  | Except.error _ => st.orders

/-- `GET /orders/{order_id}` (`get_order`): authenticate, then look the
order up by id AND owning user; any miss is the same 404. -/
def get_order (st : DBState) (order_id : String) (token : Option String) :
    Except PyErr OrderDoc :=
  match auth_user st token with
  | Except.error e => Except.error e
  | Except.ok user =>
    match st.orders.find? (fun o =>
        to_object_id order_id == some o.id && o.user_id == user.id) with
    | Option.none => Except.error (PyErr.http 404 "Order not found")
    | some doc => Except.ok doc

/-- `True` when an `Except` is a success, matching Python control flow
that did not raise. -/
def exOk {α : Type} : Except PyErr α → Bool
  | Except.ok _ => true
  | Except.error _ => false

/-! ## Helper lemmas -/

theorem strAppend_assoc (a b c : String) : a ++ b ++ c = a ++ (b ++ c) := by
  rcases a with ⟨la⟩
  rcases b with ⟨lb⟩
  rcases c with ⟨lc⟩
  show String.mk (la ++ lb ++ lc) = String.mk (la ++ (lb ++ lc))
  rw [List.append_assoc]

theorem computeLines_ok_flag {items : List CartItem} {ls : List LineItem}
    {sub : Int} {off : Bool} (h : computeLines items = Except.ok (ls, sub, off)) :
    off = items.any lineOffice := by
  induction items generalizing ls sub off with
  | nil =>
    simp only [computeLines, Except.ok.injEq, Prod.mk.injEq] at h
    simp [h.2.2.symm]
  | cons it rest ih =>
    unfold computeLines at h
    cases hl : lineResult it with
    | error e => rw [hl] at h; cases h
    | ok li =>
      rw [hl] at h
      cases hr : computeLines rest with
      | error e => rw [hr] at h; cases h
      | ok t =>
        obtain ⟨ls2, sub2, off2⟩ := t
        rw [hr] at h
        simp only [Except.ok.injEq, Prod.mk.injEq] at h
        rw [List.any_cons, ← h.2.2, ih hr]

theorem computeLines_first_error (pre : List CartItem) (bad : CartItem)
    (rest : List CartItem) (e : PyErr)
    (hok : ∀ it ∈ pre, exOk (lineResult it) = true)
    (hbad : lineResult bad = Except.error e) :
    computeLines (pre ++ bad :: rest) = Except.error e := by
  induction pre with
  | nil => simp [computeLines, hbad]
  | cons it pre ih =>
    have hit : exOk (lineResult it) = true := hok it (by simp)
    cases hl : lineResult it with
    | error e2 => rw [hl] at hit; simp [exOk] at hit
    | ok li =>
      have htail := ih (fun x hx => hok x (by simp [hx]))
      simp [computeLines, hl, htail]

theorem auth_error_is_401 (st : DBState) (t : Option String) (e : PyErr)
    (h : auth_user st t = Except.error e) : ∃ d, e = PyErr.http 401 d := by
  unfold auth_user at h
  repeat' split at h
  all_goals first
    | (injection h with h; exact ⟨_, h.symm⟩)
    | cases h

/-! ## Claims -/

/-- Claim C10: the empty cart prices successfully to the empty quote
with subtotal 0, platform fee 10, delivery fee 35, total 45, and no
office-visiting-cards flag. -/
theorem claim_C10_empty_cart :
    compute_price [] =
      Except.ok
        { items := []
          subtotal := 0
          platform_fee := 10
          delivery_fee := 35
          total := 45
          contains_office_visiting_cards := false } := rfl

/-- Claim C3: every successfully priced cart has platform fee exactly
10, delivery fee 0 when the subtotal strictly exceeds 300 and 35
otherwise (so subtotal exactly 300 still pays 35), and total equal to
subtotal + platform fee + delivery fee. -/
theorem claim_C3_fees (items : List CartItem) (q : Quote)
    (h : compute_price items = Except.ok q) :
    q.platform_fee = 10 ∧
    q.delivery_fee = (if q.subtotal > 300 then 0 else 35) ∧
    q.total = q.subtotal + q.platform_fee + q.delivery_fee := by
  unfold compute_price at h
  cases hc : computeLines items with
  | error e => rw [hc] at h; cases h
  | ok t =>
    obtain ⟨ls, sub, off⟩ := t
    rw [hc] at h
    simp only [Except.ok.injEq] at h
    subst h
    exact ⟨rfl, rfl, rfl⟩

theorem claim_C3_fees_witness :
    compute_price [{ product := "custom_mug", options := [("quantity", Value.int 4)] }] =
      Except.ok
        { items := [{ product := "custom_mug"
                      options := [("quantity", Value.int 4)]
                      quantity := 1
                      unit_price := 1040
                      addon_cost := 0
                      line_total := 1040 }]
          subtotal := 1040
          platform_fee := 10
          delivery_fee := 0
          total := 1050
          contains_office_visiting_cards := false } ∧
    (10 : Int) = 10 ∧
    (0 : Int) = (if (1040 : Int) > 300 then 0 else 35) ∧
    (1050 : Int) = 1040 + 10 + 0 := by
  refine ⟨rfl, ?_⟩
  exact claim_C3_fees [{ product := "custom_mug", options := [("quantity", Value.int 4)] }] _ rfl

/-- Options for a document-printing line, as sent by a client. -/
def docOpts (color size : String) (gsm pages : Int) : Opts :=
  [("color", Value.str color), ("size", Value.str size),
   ("gsm", Value.int gsm), ("pages", Value.int pages)]

/-- Options for a visiting-cards line. -/
def vcOpts (paper : String) (qty : Int) : Opts :=
  [("paper", Value.str paper), ("quantity", Value.int qty)]

/-- Options for a letterheads line. -/
def lhOpts (gsm qty : Int) : Opts :=
  [("gsm", Value.int gsm), ("quantity", Value.int qty)]

/-- Options for an envelopes line. -/
def envOpts (typ : String) (qty : Int) : Opts :=
  [("type", Value.str typ), ("quantity", Value.int qty)]

/-- Options for a flyers line. -/
def flyOpts (size : String) (qty : Int) : Opts :=
  [("size", Value.str size), ("quantity", Value.int qty)]

/-- Options carrying only a quantity (posters, mugs). -/
def qtyOpts (qty : Int) : Opts :=
  [("quantity", Value.int qty)]

/-- Claim C1: for every product and every option combination listed in
the pricing tables, the engine's per-line dispatch returns exactly the
listed unit price: document printing returns the 12-entry per-page
table value times the page count, visiting cards 150/250 (economy) and
250/400 (premium matte or gloss) at 50/100, letterheads 200/350
(100gsm) and 260/450 (130gsm), envelopes 200/350 (standard_80) and
260/450 (premium_100), flyers 250/400 (A5) and 350/600 (A4), posters
80 (qty 1) and 700 (qty 10), mugs 299/550/1040 at 1/2/4. -/
theorem claim_C1_pricing_tables :
    (∀ p : Int,
      price_dispatch "document_printing" (docOpts "bw" "A4" 80 p) = Except.ok (3 * p) ∧
      price_dispatch "document_printing" (docOpts "bw" "A4" 100 p) = Except.ok (4 * p) ∧
      price_dispatch "document_printing" (docOpts "bw" "A4" 130 p) = Except.ok (5 * p) ∧
      price_dispatch "document_printing" (docOpts "bw" "A3" 80 p) = Except.ok (8 * p) ∧
      price_dispatch "document_printing" (docOpts "bw" "A3" 100 p) = Except.ok (10 * p) ∧
      price_dispatch "document_printing" (docOpts "bw" "A3" 130 p) = Except.ok (12 * p) ∧
      price_dispatch "document_printing" (docOpts "colour" "A4" 80 p) = Except.ok (10 * p) ∧
      price_dispatch "document_printing" (docOpts "colour" "A4" 100 p) = Except.ok (12 * p) ∧
      price_dispatch "document_printing" (docOpts "colour" "A4" 130 p) = Except.ok (15 * p) ∧
      price_dispatch "document_printing" (docOpts "colour" "A3" 80 p) = Except.ok (25 * p) ∧
      price_dispatch "document_printing" (docOpts "colour" "A3" 100 p) = Except.ok (30 * p) ∧
      price_dispatch "document_printing" (docOpts "colour" "A3" 130 p) = Except.ok (35 * p)) ∧
    price_dispatch "visiting_cards" (vcOpts "economy_250_matte" 50) = Except.ok 150 ∧
    price_dispatch "visiting_cards" (vcOpts "economy_250_matte" 100) = Except.ok 250 ∧
    price_dispatch "visiting_cards" (vcOpts "premium_300_matte" 50) = Except.ok 250 ∧
    price_dispatch "visiting_cards" (vcOpts "premium_300_matte" 100) = Except.ok 400 ∧
    price_dispatch "visiting_cards" (vcOpts "premium_300_gloss" 50) = Except.ok 250 ∧
    price_dispatch "visiting_cards" (vcOpts "premium_300_gloss" 100) = Except.ok 400 ∧
    price_dispatch "letterheads" (lhOpts 100 100) = Except.ok 200 ∧
    price_dispatch "letterheads" (lhOpts 100 200) = Except.ok 350 ∧
    price_dispatch "letterheads" (lhOpts 130 100) = Except.ok 260 ∧
    price_dispatch "letterheads" (lhOpts 130 200) = Except.ok 450 ∧
    price_dispatch "envelopes" (envOpts "standard_80" 100) = Except.ok 200 ∧
    price_dispatch "envelopes" (envOpts "standard_80" 200) = Except.ok 350 ∧
    price_dispatch "envelopes" (envOpts "premium_100" 100) = Except.ok 260 ∧
    price_dispatch "envelopes" (envOpts "premium_100" 200) = Except.ok 450 ∧
    price_dispatch "flyers" (flyOpts "A5" 50) = Except.ok 250 ∧
    price_dispatch "flyers" (flyOpts "A5" 100) = Except.ok 400 ∧
    price_dispatch "flyers" (flyOpts "A4" 50) = Except.ok 350 ∧
    price_dispatch "flyers" (flyOpts "A4" 100) = Except.ok 600 ∧
    price_dispatch "posters" (qtyOpts 1) = Except.ok 80 ∧
    price_dispatch "posters" (qtyOpts 10) = Except.ok 700 ∧
    price_dispatch "custom_mug" (qtyOpts 1) = Except.ok 299 ∧
    price_dispatch "custom_mug" (qtyOpts 2) = Except.ok 550 ∧
    price_dispatch "custom_mug" (qtyOpts 4) = Except.ok 1040 := by
  refine ⟨fun p => ?_, ?_, ?_, ?_, ?_, ?_, ?_, ?_, ?_, ?_, ?_, ?_, ?_, ?_, ?_,
    ?_, ?_, ?_, ?_, ?_, ?_, ?_, ?_, ?_⟩ <;>
    first
      | exact ⟨rfl, rfl, rfl, rfl, rfl, rfl, rfl, rfl, rfl, rfl, rfl, rfl⟩
      | rfl

/-- Claim C7: posters pricing maps quantity exactly 1 to 80 and every
other integer-valued quantity to 700, never failing on the quantity
dimension. -/
theorem claim_C7_posters_fallback (opts : Opts) (q : Int)
    (h : toIntOpt (optGet opts "quantity") = Except.ok q) :
    price_posters opts = Except.ok (if q = 1 then 80 else 700) := by
  unfold price_posters
  rw [h]

theorem claim_C7_posters_fallback_witness :
    price_posters (qtyOpts 7) = Except.ok 700 :=
  claim_C7_posters_fallback (qtyOpts 7) 7 rfl

/-- Claim C9: for visiting cards, letterheads, envelopes and flyers the
quantity option is never validated: once the other key dimension is a
valid table value, any integer quantity other than the low tier (50 for
visiting cards and flyers, 100 for letterheads and envelopes) resolves
to the high-tier price without error. -/
theorem claim_C9_quantity_unvalidated :
    (∀ opts q, toIntOpt (optGet opts "quantity") = Except.ok q →
      (optGet opts "paper" = some (Value.str "economy_250_matte") →
        price_visiting_cards opts = Except.ok (if q = 50 then 150 else 250)) ∧
      ((optGet opts "paper" = some (Value.str "premium_300_matte") ∨
          optGet opts "paper" = some (Value.str "premium_300_gloss")) →
        price_visiting_cards opts = Except.ok (if q = 50 then 250 else 400))) ∧
    (∀ opts q, toIntOpt (optGet opts "gsm") = Except.ok 100 →
      toIntOpt (optGet opts "quantity") = Except.ok q →
      price_letterheads opts = Except.ok (if q = 100 then 200 else 350)) ∧
    (∀ opts q, toIntOpt (optGet opts "gsm") = Except.ok 130 →
      toIntOpt (optGet opts "quantity") = Except.ok q →
      price_letterheads opts = Except.ok (if q = 100 then 260 else 450)) ∧
    (∀ opts q, toIntOpt (optGet opts "quantity") = Except.ok q →
      (optGet opts "type" = some (Value.str "standard_80") →
        price_envelopes opts = Except.ok (if q = 100 then 200 else 350)) ∧
      (optGet opts "type" = some (Value.str "premium_100") →
        price_envelopes opts = Except.ok (if q = 100 then 260 else 450))) ∧
    (∀ opts q, toIntOpt (optGet opts "quantity") = Except.ok q →
      (optGet opts "size" = some (Value.str "A5") →
        price_flyers opts = Except.ok (if q = 50 then 250 else 400)) ∧
      (optGet opts "size" = some (Value.str "A4") →
        price_flyers opts = Except.ok (if q = 50 then 350 else 600))) := by
  refine ⟨?_, ?_, ?_, ?_, ?_⟩
  · intro opts q hq
    constructor
    · intro hp
      unfold price_visiting_cards
      rw [hq, hp]
      simp
    · intro hp
      unfold price_visiting_cards
      rcases hp with hp | hp <;> rw [hq, hp] <;> simp
  · intro opts q hg hq
    unfold price_letterheads
    rw [hg, hq]
    simp
  · intro opts q hg hq
    unfold price_letterheads
    rw [hg, hq]
    simp
  · intro opts q hq
    constructor <;> intro ht <;> unfold price_envelopes <;> rw [hq, ht] <;> simp
  · intro opts q hq
    constructor <;> intro hs <;> unfold price_flyers <;> rw [hq, hs] <;> simp

theorem claim_C9_quantity_unvalidated_witness :
    (price_visiting_cards (vcOpts "economy_250_matte" 77) = Except.ok 250 ∧
      price_visiting_cards (vcOpts "premium_300_gloss" 77) = Except.ok 400) ∧
    price_letterheads (lhOpts 100 999) = Except.ok 350 ∧
    price_letterheads (lhOpts 130 999) = Except.ok 450 ∧
    price_envelopes (envOpts "standard_80" 3) = Except.ok 350 ∧
    price_flyers (flyOpts "A4" 51) = Except.ok 600 :=
  ⟨⟨(claim_C9_quantity_unvalidated.1 (vcOpts "economy_250_matte" 77) 77 rfl).1 rfl,
    (claim_C9_quantity_unvalidated.1 (vcOpts "premium_300_gloss" 77) 77 rfl).2 (Or.inr rfl)⟩,
   claim_C9_quantity_unvalidated.2.1 (lhOpts 100 999) 999 rfl rfl,
   claim_C9_quantity_unvalidated.2.2.1 (lhOpts 130 999) 999 rfl rfl,
   (claim_C9_quantity_unvalidated.2.2.2.1 (envOpts "standard_80" 3) 3 rfl).1 rfl,
   (claim_C9_quantity_unvalidated.2.2.2.2 (flyOpts "A4" 51) 51 rfl).2 rfl⟩

/-- Claim C8: no add-ons cost 0; a spiral-binding add-on contributes
nothing on a non-document-printing line (silently ignored, never an
error — `price_addons` is total) and 30 (`up_to_80`) or 40 (`81_150`)
on document printing; a lamination add-on contributes 15 (ID), 40 (A4)
or 60 (A3) whatever the base product. -/
theorem claim_C8_addons :
    (∀ prod opts, price_addons Option.none prod opts = 0) ∧
    (∀ prod opts,
      price_addons (some { spiral_binding := Option.none, lamination := Option.none })
        prod opts = 0) ∧
    (∀ prod opts sb lam, prod ≠ "document_printing" →
      price_addons (some { spiral_binding := some sb, lamination := lam }) prod opts =
        price_addons (some { spiral_binding := Option.none, lamination := lam }) prod opts) ∧
    (∀ opts lam,
      price_addons (some { spiral_binding := some Spiral.up_to_80, lamination := lam })
          "document_printing" opts =
        30 + price_addons (some { spiral_binding := Option.none, lamination := lam })
          "document_printing" opts) ∧
    (∀ opts lam,
      price_addons (some { spiral_binding := some Spiral.r81_150, lamination := lam })
          "document_printing" opts =
        40 + price_addons (some { spiral_binding := Option.none, lamination := lam })
          "document_printing" opts) ∧
    (∀ prod opts sb,
      price_addons (some { spiral_binding := sb, lamination := some Lam.ID }) prod opts =
        price_addons (some { spiral_binding := sb, lamination := Option.none }) prod opts + 15) ∧
    (∀ prod opts sb,
      price_addons (some { spiral_binding := sb, lamination := some Lam.A4 }) prod opts =
        price_addons (some { spiral_binding := sb, lamination := Option.none }) prod opts + 40) ∧
    (∀ prod opts sb,
      price_addons (some { spiral_binding := sb, lamination := some Lam.A3 }) prod opts =
        price_addons (some { spiral_binding := sb, lamination := Option.none }) prod opts + 60) := by
  refine ⟨fun prod opts => rfl, fun prod opts => rfl, ?_, ?_, ?_, ?_, ?_, ?_⟩
  · intro prod opts sb lam h
    unfold price_addons
    dsimp only
    rw [if_neg h]
  · intro opts lam
    cases lam <;> simp [price_addons]
  · intro opts lam
    cases lam <;> simp [price_addons]
  · intro prod opts sb
    rcases sb with _ | s
    · simp [price_addons]
    · cases s <;> simp [price_addons]
  · intro prod opts sb
    rcases sb with _ | s
    · simp [price_addons]
    · cases s <;> simp [price_addons]
  · intro prod opts sb
    rcases sb with _ | s
    · simp [price_addons]
    · cases s <;> simp [price_addons]

theorem claim_C8_addons_witness :
    price_addons
        (some { spiral_binding := some Spiral.up_to_80, lamination := some Lam.ID })
        "flyers" [] =
      price_addons (some { spiral_binding := Option.none, lamination := some Lam.ID })
        "flyers" [] :=
  claim_C8_addons.2.2.1 "flyers" [] Spiral.up_to_80 (some Lam.ID) (by decide)

/-- Counterexample to claim C2 as stated: a cart line with the
malformed numeric option `quantity="abc"` makes `compute_price` fail
with Python's `ValueError` from `int()` — an unhandled server-side
error — not with an `HTTPException(400)` ValidationError. -/
theorem claim_C2_counterexample :
    compute_price
        [{ product := "visiting_cards",
           options := [("paper", Value.str "economy_250_matte"),
                       ("quantity", Value.str "abc")] }] =
      Except.error PyErr.valueError ∧
    PyErr.isValidationError PyErr.valueError = false :=
  ⟨rfl, rfl⟩

/-- Claim C2 (amended): pricing an invalid cart fails at the first
invalid line with that line's error and yields no partial quote; an
unknown product tag or an option combination absent from its table
fails with ValidationError (HTTP 400), while a malformed numeric
option propagates the `int()` conversion error (ValueError/TypeError),
which is not a client-side ValidationError. -/
theorem claim_C2_amended :
    (∀ (pre : List CartItem) (bad : CartItem) (rest : List CartItem) (e : PyErr),
      (∀ it ∈ pre, exOk (lineResult it) = true) →
      lineResult bad = Except.error e →
      compute_price (pre ++ bad :: rest) = Except.error e) ∧
    (∀ it : CartItem,
      it.product ∉ (["document_printing", "visiting_cards", "letterheads",
        "envelopes", "flyers", "posters", "custom_mug"] : List String) →
      lineResult it = Except.error (PyErr.http 400 "Unknown product")) ∧
    (∀ opts q, toIntOpt (optGet opts "quantity") = Except.ok q →
      optGet opts "paper" ≠ some (Value.str "economy_250_matte") →
      optGet opts "paper" ≠ some (Value.str "premium_300_matte") →
      optGet opts "paper" ≠ some (Value.str "premium_300_gloss") →
      price_visiting_cards opts = Except.error (PyErr.http 400 "Invalid options")) ∧
    (∀ opts g q, toIntOpt (optGet opts "gsm") = Except.ok g →
      toIntOpt (optGet opts "quantity") = Except.ok q →
      g ≠ 100 → g ≠ 130 →
      price_letterheads opts = Except.error (PyErr.http 400 "Invalid options")) ∧
    (∀ opts q, toIntOpt (optGet opts "quantity") = Except.ok q →
      optGet opts "type" ≠ some (Value.str "standard_80") →
      optGet opts "type" ≠ some (Value.str "premium_100") →
      price_envelopes opts = Except.error (PyErr.http 400 "Invalid options")) ∧
    (∀ opts q, toIntOpt (optGet opts "quantity") = Except.ok q →
      optGet opts "size" ≠ some (Value.str "A5") →
      optGet opts "size" ≠ some (Value.str "A4") →
      price_flyers opts = Except.error (PyErr.http 400 "Invalid options")) ∧
    (∀ opts q, toIntOpt (optGet opts "quantity") = Except.ok q →
      q ≠ 1 → q ≠ 2 → q ≠ 4 →
      price_mugs opts = Except.error (PyErr.http 400 "Invalid options")) ∧
    (∀ opts g p, toIntOpt (optGet opts "gsm") = Except.ok g →
      pagesOf opts = Except.ok p →
      docTable (optGet opts "color") (optGet opts "size") g = Option.none →
      price_document_printing opts = Except.error (PyErr.http 400 "Invalid options")) ∧
    (∀ opts e, toIntOpt (optGet opts "quantity") = Except.error e →
      price_visiting_cards opts = Except.error e) ∧
    (∀ opts e, toIntOpt (optGet opts "quantity") = Except.error e →
      price_envelopes opts = Except.error e) ∧
    (∀ opts e, toIntOpt (optGet opts "quantity") = Except.error e →
      price_flyers opts = Except.error e) ∧
    (∀ opts e, toIntOpt (optGet opts "quantity") = Except.error e →
      price_posters opts = Except.error e) ∧
    (∀ opts e, toIntOpt (optGet opts "quantity") = Except.error e →
      price_mugs opts = Except.error e) ∧
    (∀ opts e, toIntOpt (optGet opts "gsm") = Except.error e →
      price_letterheads opts = Except.error e) ∧
    (∀ opts g e, toIntOpt (optGet opts "gsm") = Except.ok g →
      toIntOpt (optGet opts "quantity") = Except.error e →
      price_letterheads opts = Except.error e) ∧
    (∀ opts e, toIntOpt (optGet opts "gsm") = Except.error e →
      price_document_printing opts = Except.error e) ∧
    (∀ opts g e, toIntOpt (optGet opts "gsm") = Except.ok g →
      pagesOf opts = Except.error e →
      price_document_printing opts = Except.error e) ∧
    (∀ v e, toIntOpt v = Except.error e →
      e = PyErr.valueError ∨ e = PyErr.typeError) ∧
    PyErr.isValidationError PyErr.valueError = false ∧
    PyErr.isValidationError PyErr.typeError = false := by
  refine ⟨?_, ?_, ?_, ?_, ?_, ?_, ?_, ?_, ?_, ?_, ?_, ?_, ?_, ?_, ?_, ?_, ?_, ?_, rfl, rfl⟩
  · intro pre bad rest e hok hbad
    unfold compute_price
    rw [computeLines_first_error pre bad rest e hok hbad]
  · intro it h
    simp only [List.mem_cons, List.not_mem_nil, or_false, not_or] at h
    obtain ⟨h1, h2, h3, h4, h5, h6, h7⟩ := h
    unfold lineResult price_dispatch
    simp [h1, h2, h3, h4, h5, h6, h7]
  · intro opts q hq h1 h2 h3
    simp only [price_visiting_cards, hq]
    rw [if_neg h1, if_neg (fun hc => hc.elim h2 h3)]
  · intro opts g q hg hq h1 h2
    simp only [price_letterheads, hg, hq]
    rw [if_neg h1, if_neg h2]
  · intro opts q hq h1 h2
    simp only [price_envelopes, hq]
    rw [if_neg h1, if_neg h2]
  · intro opts q hq h1 h2
    simp only [price_flyers, hq]
    rw [if_neg h1, if_neg h2]
  · intro opts q hq h1 h2 h3
    simp only [price_mugs, hq]
    rw [if_neg h1, if_neg h2, if_neg h3]
  · intro opts g p hg hp ht
    simp only [price_document_printing, hg, hp, ht]
  · intro opts e he
    simp only [price_visiting_cards, he]
  · intro opts e he
    simp only [price_envelopes, he]
  · intro opts e he
    simp only [price_flyers, he]
  · intro opts e he
    simp only [price_posters, he]
  · intro opts e he
    simp only [price_mugs, he]
  · intro opts e he
    simp only [price_letterheads, he]
  · intro opts g e hg he
    simp only [price_letterheads, hg, he]
  · intro opts e he
    simp only [price_document_printing, he]
  · intro opts g e hg he
    simp only [price_document_printing, hg, he]
  · intro v e h
    rcases v with _ | w
    · simp only [toIntOpt, Except.error.injEq] at h
      exact Or.inr h.symm
    · rcases w with s | n | _
      · simp only [toIntOpt, toIntV] at h
        cases hs : pyToInt s with
        | some n => rw [hs] at h; cases h
        | none =>
          rw [hs] at h
          simp only [Except.error.injEq] at h
          exact Or.inl h.symm
      · simp only [toIntOpt, toIntV] at h
        cases h
      · simp only [toIntOpt, toIntV, Except.error.injEq] at h
        exact Or.inr h.symm

theorem claim_C2_amended_witness :
    compute_price
        [{ product := "custom_mug", options := qtyOpts 1 },
         { product := "tshirts", options := [] },
         { product := "custom_mug", options := qtyOpts 2 }] =
      Except.error (PyErr.http 400 "Unknown product") ∧
    lineResult { product := "tshirts", options := [] } =
      Except.error (PyErr.http 400 "Unknown product") ∧
    price_visiting_cards (vcOpts "glossy_999" 50) =
      Except.error (PyErr.http 400 "Invalid options") ∧
    price_letterheads (lhOpts 90 100) =
      Except.error (PyErr.http 400 "Invalid options") ∧
    price_envelopes (envOpts "golden" 100) =
      Except.error (PyErr.http 400 "Invalid options") ∧
    price_flyers (flyOpts "A1" 50) =
      Except.error (PyErr.http 400 "Invalid options") ∧
    price_mugs (qtyOpts 3) =
      Except.error (PyErr.http 400 "Invalid options") ∧
    price_document_printing (docOpts "bw" "A2" 80 1) =
      Except.error (PyErr.http 400 "Invalid options") ∧
    price_posters [("quantity", Value.str "x")] = Except.error PyErr.valueError ∧
    (PyErr.valueError = PyErr.valueError ∨ PyErr.valueError = PyErr.typeError) := by
  obtain ⟨a1, a2, a3, a4, a5, a6, a7, a8, a9, a10, a11, a12, a13, a14, a15, a16,
    a17, a18, a19, a20⟩ := claim_C2_amended
  exact ⟨a1 [{ product := "custom_mug", options := qtyOpts 1 }]
          { product := "tshirts", options := [] }
          [{ product := "custom_mug", options := qtyOpts 2 }]
          (PyErr.http 400 "Unknown product") (by decide) rfl,
    a2 { product := "tshirts", options := [] } (by decide),
    a3 (vcOpts "glossy_999" 50) 50 rfl (by decide) (by decide) (by decide),
    a4 (lhOpts 90 100) 90 100 rfl rfl (by decide) (by decide),
    a5 (envOpts "golden" 100) 100 rfl (by decide) (by decide),
    a6 (flyOpts "A1" 50) 50 rfl (by decide) (by decide),
    a7 (qtyOpts 3) 3 rfl (by decide) (by decide) (by decide),
    a8 (docOpts "bw" "A2" 80 1) 80 1 rfl rfl rfl,
    a12 [("quantity", Value.str "x")] PyErr.valueError rfl,
    a18 (some (Value.str "x")) PyErr.valueError rfl⟩

/-- Claim C5: when authentication fails (token absent or empty, token
not among sessions, or the session's owner gone), checkout propagates
that very error, every authentication error is an HTTP 401, and the
order store is left unchanged — no Order is persisted. -/
theorem claim_C5_auth_before_persist (admin : String) (st : DBState)
    (p : CheckoutPayload) (e : PyErr)
    (h : auth_user st p.token = Except.error e) :
    place_order admin st p = Except.error e ∧
    (∃ d, e = PyErr.http 401 d) ∧
    ordersAfter admin st p = st.orders := by
  have hpl : place_order admin st p = Except.error e := by
    unfold place_order
    rw [h]
  refine ⟨hpl, auth_error_is_401 st p.token e h, ?_⟩
  unfold ordersAfter
  rw [hpl]

theorem claim_C5_auth_before_persist_witness :
    place_order "+911234567890"
        { sessions := [], users := [], orders := [], next_id := 0 }
        { items := [], address := { address_line := "a", city := "b", pincode := "c" },
          payment_method := "cod", token := Option.none } =
      Except.error (PyErr.http 401 "Not authenticated") ∧
    (∃ d, PyErr.http 401 "Not authenticated" = PyErr.http 401 d) ∧
    ordersAfter "+911234567890"
        { sessions := [], users := [], orders := [], next_id := 0 }
        { items := [], address := { address_line := "a", city := "b", pincode := "c" },
          payment_method := "cod", token := Option.none } =
      [] :=
  claim_C5_auth_before_persist "+911234567890"
    { sessions := [], users := [], orders := [], next_id := 0 }
    { items := [], address := { address_line := "a", city := "b", pincode := "c" },
      payment_method := "cod", token := Option.none }
    (PyErr.http 401 "Not authenticated") rfl

/-- Claim C6: the order-detail operation never hands out a foreign
order: a successful lookup always belongs to the authenticated caller,
and when no order matches both the id and the caller (whether the id
does not exist or belongs to someone else) the result is the one
indistinguishable 404 "Order not found". -/
theorem claim_C6_order_isolation (st : DBState) (oid : String) (tok : Option String) :
    (∀ doc, get_order st oid tok = Except.ok doc →
      ∃ u, auth_user st tok = Except.ok u ∧ doc.user_id = u.id) ∧
    (∀ u, auth_user st tok = Except.ok u →
      (∀ doc ∈ st.orders, ¬(to_object_id oid = some doc.id ∧ doc.user_id = u.id)) →
      get_order st oid tok = Except.error (PyErr.http 404 "Order not found")) := by
  constructor
  · intro doc h
    unfold get_order at h
    cases ha : auth_user st tok with
    | error e => rw [ha] at h; cases h
    | ok u =>
      rw [ha] at h
      dsimp only at h
      refine ⟨u, rfl, ?_⟩
      cases hf : st.orders.find? (fun o =>
          to_object_id oid == some o.id && o.user_id == u.id) with
      | none => rw [hf] at h; cases h
      | some d =>
        rw [hf] at h
        have hp := List.find?_some hf
        simp only [Bool.and_eq_true, beq_iff_eq] at hp
        cases h
        exact hp.2
  · intro u ha hnone
    unfold get_order
    rw [ha]
    dsimp only
    have hf : st.orders.find? (fun o =>
        to_object_id oid == some o.id && o.user_id == u.id) = Option.none := by
      rw [List.find?_eq_none]
      intro doc hdoc
      have := hnone doc hdoc
      simp only [Bool.and_eq_true, beq_iff_eq, not_and] at this ⊢
      intro h1 h2
      exact this h1 h2
    rw [hf]

/-- A store where Alice is authenticated but the only order belongs to
a different user: the lookup must 404. -/
def isolationState : DBState :=
  { sessions := [{ user_id := "aaaaaaaaaaaaaaaaaaaaaaaa", token := "tok-alice", expires_at := 0 }]
    users := [{ id := "aaaaaaaaaaaaaaaaaaaaaaaa", full_name := "Alice",
                mobile := "9990001111", email := "alice@example.com" }]
    orders := [{ id := "bbbbbbbbbbbbbbbbbbbbbbbb"
                 user_id := "cccccccccccccccccccccccc"
                 items := []
                 pricing_items := []
                 subtotal := 0
                 platform_fee := 10
                 delivery_fee := 35
                 total := 45
                 status := "Placed"
                 address := { address_line := "x", city := "y", pincode := "z" }
                 contains_office_visiting_cards := false }]
    next_id := 1 }

theorem claim_C6_order_isolation_witness :
    get_order isolationState "bbbbbbbbbbbbbbbbbbbbbbbb" (some "tok-alice") =
      Except.error (PyErr.http 404 "Order not found") :=
  (claim_C6_order_isolation isolationState "bbbbbbbbbbbbbbbbbbbbbbbb"
      (some "tok-alice")).2
    { id := "aaaaaaaaaaaaaaaaaaaaaaaa", full_name := "Alice",
      mobile := "9990001111", email := "alice@example.com" }
    rfl (by decide)

theorem compute_price_flag {items : List CartItem} {q : Quote}
    (h : compute_price items = Except.ok q) :
    q.contains_office_visiting_cards = items.any lineOffice := by
  unfold compute_price at h
  cases hc : computeLines items with
  | error e => rw [hc] at h; cases h
  | ok t =>
    obtain ⟨ls, sub, off⟩ := t
    rw [hc] at h
    simp only [Except.ok.injEq] at h
    subst h
    exact computeLines_ok_flag hc

theorem link_contains_oid (admin oid name mob : String) :
    ∃ a b, whatsapp_link_of admin oid name mob = a ++ oid ++ b := by
  refine ⟨"https://wa.me/" ++ (admin.replace "+" "") ++ "?text=" ++ "Order ID: ",
    "%0AUser: " ++ name ++ " (" ++ mob ++
      ")%0AProduct: Office visiting card%0ADetails: see admin panel", ?_⟩
  simp only [whatsapp_link_of, whatsapp_text, strAppend_assoc]

theorem link_contains_mobile (admin oid name mob : String) :
    ∃ a b, whatsapp_link_of admin oid name mob = a ++ mob ++ b := by
  refine ⟨"https://wa.me/" ++ (admin.replace "+" "") ++ "?text=" ++ "Order ID: " ++
      oid ++ "%0AUser: " ++ name ++ " (",
    ")%0AProduct: Office visiting card%0ADetails: see admin panel", ?_⟩
  simp only [whatsapp_link_of, whatsapp_text, strAppend_assoc]

/-- Claim C4: a successfully priced cart's office flag is set exactly
when some line is a visiting-cards line with `card_type="office"`; on a
successful checkout, when such a line is present the receipt carries a
non-null WhatsApp link containing the generated order id and the
authenticated user's mobile number plus the human-readable notice,
and when no such line is present both the link and the notice are
null. -/
theorem claim_C4_office_cards :
    (∀ (items : List CartItem) (q : Quote), compute_price items = Except.ok q →
      q.contains_office_visiting_cards = items.any lineOffice) ∧
    (∀ (admin : String) (st : DBState) (p : CheckoutPayload)
        (st2 : DBState) (r : OrderReceipt),
      place_order admin st p = Except.ok (st2, r) →
      ∃ u, auth_user st p.token = Except.ok u ∧
        ((p.items.any lineOffice = true →
          ∃ link, r.whatsapp_link = some link ∧
            r.message = some OFFICE_MESSAGE ∧
            (∃ a b, link = a ++ r.order_id ++ b) ∧
            (∃ a b, link = a ++ u.mobile ++ b)) ∧
        (p.items.any lineOffice = false →
          r.whatsapp_link = Option.none ∧ r.message = Option.none))) := by
  constructor
  · intro items q h
    exact compute_price_flag h
  · intro admin st p st2 r h
    unfold place_order at h
    cases ha : auth_user st p.token with
    | error e => rw [ha] at h; cases h
    | ok u =>
      rw [ha] at h
      dsimp only at h
      cases hc : compute_price p.items with
      | error e => rw [hc] at h; cases h
      | ok pricing =>
        rw [hc] at h
        dsimp only at h
        have hflag := compute_price_flag hc
        refine ⟨u, rfl, ?_, ?_⟩
        · intro htrue
          have hoff : pricing.contains_office_visiting_cards = true :=
            hflag.trans htrue
          rw [hoff] at h
          rw [if_pos rfl] at h
          simp only [Except.ok.injEq, Prod.mk.injEq] at h
          rw [← h.2]
          exact ⟨whatsapp_link_of admin (genId st.next_id) u.full_name u.mobile,
            rfl, rfl,
            link_contains_oid admin (genId st.next_id) u.full_name u.mobile,
            link_contains_mobile admin (genId st.next_id) u.full_name u.mobile⟩
        · intro hfalse
          have hoff : pricing.contains_office_visiting_cards = false :=
            hflag.trans hfalse
          rw [hoff] at h
          rw [if_neg Bool.false_ne_true] at h
          simp only [Except.ok.injEq, Prod.mk.injEq] at h
          rw [← h.2]
          exact ⟨rfl, rfl⟩

/-- A store with one authenticated user for exercising checkout. -/
def officeState : DBState :=
  { sessions := [{ user_id := "abcdefabcdefabcdefabcdef", token := "tok-bob", expires_at := 0 }]
    users := [{ id := "abcdefabcdefabcdefabcdef", full_name := "Bob Kumar",
                mobile := "9876543210", email := "bob@example.com" }]
    orders := []
    next_id := 0 }

/-- A cart holding one office visiting-cards line. -/
def officeCart : List CartItem :=
  [{ product := "visiting_cards",
     options := [("card_type", Value.str "office"),
                 ("paper", Value.str "premium_300_matte"),
                 ("quantity", Value.int 100)] }]

/-- The checkout payload for `officeCart`. -/
def officePayload : CheckoutPayload :=
  { items := officeCart
    address := { address_line := "12 MG Road", city := "Pune", pincode := "411001" }
    payment_method := "cod"
    token := some "tok-bob" }

/-- The state and receipt `place_order` produces on `officePayload`. -/
def officeOut : DBState × OrderReceipt :=
  match place_order "+911234567890" officeState officePayload with
  | Except.ok out => out
  | Except.error _ =>
      ({ sessions := [], users := [], orders := [], next_id := 0 },
       { order_id := "", total := 0, status := "",
         whatsapp_link := Option.none, message := Option.none })

/-- The quote `compute_price` produces on `officeCart`. -/
def officeQuote : Quote :=
  match compute_price officeCart with
  | Except.ok q => q
  | Except.error _ =>
      { items := [], subtotal := 0, platform_fee := 0, delivery_fee := 0,
        total := 0, contains_office_visiting_cards := false }

theorem claim_C4_office_cards_witness :
    officeQuote.contains_office_visiting_cards = officeCart.any lineOffice ∧
    ∃ u, auth_user officeState officePayload.token = Except.ok u ∧
      ((officePayload.items.any lineOffice = true →
        ∃ link, officeOut.2.whatsapp_link = some link ∧
          officeOut.2.message = some OFFICE_MESSAGE ∧
          (∃ a b, link = a ++ officeOut.2.order_id ++ b) ∧
          (∃ a b, link = a ++ u.mobile ++ b)) ∧
      (officePayload.items.any lineOffice = false →
        officeOut.2.whatsapp_link = Option.none ∧ officeOut.2.message = Option.none)) :=
  ⟨claim_C4_office_cards.1 officeCart officeQuote rfl,
   claim_C4_office_cards.2 "+911234567890" officeState officePayload
     officeOut.1 officeOut.2 rfl⟩
